import Mathlib

/-!
Verification of the `ai-waste-rewards` repository.

This file gives a shallow embedding of the two source files

  * `supabase/functions/classify-waste/index.ts` — the classification
    request handler (`classifyWasteHandler` below, together with the JSON
    parsing, code-fence stripping and credit computation it performs), and
  * `src/pages/Auth.tsx` — the passwordless-code handlers
    (`handleSendOTP`, `handleVerifyOTP` below),

and proves the behavioural properties stated in the specification.

Modelling conventions:

  * JSON numbers are modelled as exact integers (`Int`).  The repository
    computes `Math.floor((confidence / 100) * 5)` with IEEE doubles; on the
    integer confidences the contract ranges over, that expression equals the
    exact rational floor `⌊confidence * 5 / 100⌋` modelled here.  Fractional
    or exponent number literals are outside the model (the parser rejects
    them), as is JavaScript's implicit numeric coercion of non-number
    values: every verified statement constrains `confidence` to a JSON
    number.
  * The external `fetch` to the model gateway is modelled by a
    `FetchResult` input; the number of external calls the handler makes is
    returned alongside the response.
  * Runtime-generated error texts are inputs, since their exact wording is
    produced by the JavaScript runtime, not by the repository: the message
    of a `JSON.parse` syntax error (`parseFailureMsg`) and the message of
    the `TypeError` raised by `classification.category` when the parsed
    document is the bare JSON `null` (`nullAccessMsg`).
  * Response bodies are modelled structurally (as `Json` values) rather
    than as serialized strings; `JSON.stringify` omitting keys whose value
    is `undefined`, and serializing `NaN` as `null`, is reflected in
    `successBody`.
-/

/-- JSON values as produced by `JSON.parse`, with numbers restricted to
exact integers. -/
inductive Json where
  | null : Json
  | bool (b : Bool) : Json
  | num (n : Int) : Json
  | str (s : String) : Json
  | arr (elems : List Json) : Json
  | obj (fields : List (String × Json)) : Json
deriving Repr

/-- Whitespace accepted between JSON tokens. -/
def isJsonWs (c : Char) : Bool :=
  c = ' ' || c = '\t' || c = '\n' || c = '\r'

/-- Drop leading JSON whitespace. -/
def skipWs : List Char → List Char
  | [] => []
  | c :: cs => if isJsonWs c then skipWs cs else c :: cs

/-- Decode a JSON string escape character (the `\uXXXX` form is outside the
model). -/
def escChar (e : Char) : Option Char :=
  if e = 'n' then some '\n'
  else if e = 't' then some '\t'
  else if e = 'r' then some '\r'
  else if e = '"' then some '"'
  else if e = '/' then some '/'
  else if e = '\\' then some '\\'
  else if e = 'b' then some (Char.ofNat 8)
  else if e = 'f' then some (Char.ofNat 12)
  else none

/-- Parse the body of a JSON string literal, after the opening quote:
returns the decoded characters and the remaining input. -/
def parseStringBody : Nat → List Char → Option (List Char × List Char)
  | 0, _ => none
  | _ + 1, [] => none
  | fuel + 1, c :: cs =>
    if c = '"' then some ([], cs)
    else if c = '\\' then
      match cs with
      | [] => none
      | e :: cs2 =>
        match escChar e with
        | some d =>
          match parseStringBody fuel cs2 with
          | some (body, r) => some (d :: body, r)
          | none => none
        | none => none
    else if c.toNat < 32 then none
    else
      match parseStringBody fuel cs with
      | some (body, r) => some (c :: body, r)
      | none => none

/-- Numeric value of a list of decimal digits. -/
def digitsVal (ds : List Char) : Nat :=
  ds.foldl (fun a c => a * 10 + (c.toNat - 48)) 0

/-- Parse the digit part of a JSON number (leading zeros rejected as in
JSON; fractional and exponent forms are outside the model). -/
def parseNatPart (cs : List Char) : Option (Nat × List Char) :=
  let ds := cs.takeWhile Char.isDigit
  let rest := cs.dropWhile Char.isDigit
  if ds = [] then none
  else if 1 < ds.length && ds.head? = some '0' then none
  else
    match rest with
    | '.' :: _ => none
    | 'e' :: _ => none
    | 'E' :: _ => none
    | _ => some (digitsVal ds, rest)

/-- Consume an expected literal keyword tail, returning the rest of the
input when it is present. -/
def expectLit (lit cs : List Char) : Option (List Char) :=
  if cs.take lit.length = lit then some (cs.drop lit.length) else none

/-- Parse a JSON number (integer form). -/
def parseNumber (cs : List Char) : Option (Int × List Char) :=
  match cs with
  | '-' :: rest =>
    match parseNatPart rest with
    | some (n, r) => some (-(n : Int), r)
    | none => none
  | _ =>
    match parseNatPart cs with
    | some (n, r) => some ((n : Int), r)
    | none => none

mutual

/-- Parse one JSON value (fueled recursive descent). -/
def parseValue : Nat → List Char → Option (Json × List Char)
  | 0, _ => none
  | fuel + 1, cs =>
    match skipWs cs with
    | [] => none
    | c :: rest =>
      if c = '"' then
        match parseStringBody (rest.length + 1) rest with
        | some (body, r) => some (Json.str (String.mk body), r)
        | none => none
      else if c = '{' then
        match skipWs rest with
        | '}' :: r => some (Json.obj [], r)
        | r2 =>
          match parseMembers fuel r2 with
          | some (fs, r) => some (Json.obj fs, r)
          | none => none
      else if c = '[' then
        match skipWs rest with
        | ']' :: r => some (Json.arr [], r)
        | r2 =>
          match parseElements fuel r2 with
          | some (es, r) => some (Json.arr es, r)
          | none => none
      else if c = 't' then
        match expectLit ("rue".data) rest with
        | some r => some (Json.bool true, r)
        | none => none
      else if c = 'f' then
        match expectLit ("alse".data) rest with
        | some r => some (Json.bool false, r)
        | none => none
      else if c = 'n' then
        match expectLit ("ull".data) rest with
        | some r => some (Json.null, r)
        | none => none
      else
        match parseNumber (c :: rest) with
        | some (n, r) => some (Json.num n, r)
        | none => none

/-- Parse the members of a JSON object, after the opening brace (the
empty-object case is handled by the caller). -/
def parseMembers : Nat → List Char → Option (List (String × Json) × List Char)
  | 0, _ => none
  | fuel + 1, cs =>
    match skipWs cs with
    | '"' :: rest =>
      match parseStringBody (rest.length + 1) rest with
      | some (keyChars, r1) =>
        (match skipWs r1 with
         | ':' :: r2 =>
           match parseValue fuel r2 with
           | some (v, r3) =>
             (match skipWs r3 with
              | ',' :: r4 =>
                (match parseMembers fuel r4 with
                 | some (fs, r5) => some ((String.mk keyChars, v) :: fs, r5)
                 | none => none)
              | '}' :: r4 => some ([(String.mk keyChars, v)], r4)
              | _ => none)
           | none => none
         | _ => none)
      | none => none
    | _ => none

/-- Parse the elements of a JSON array, after the opening bracket (the
empty-array case is handled by the caller). -/
def parseElements : Nat → List Char → Option (List Json × List Char)
  | 0, _ => none
  | fuel + 1, cs =>
    match parseValue fuel cs with
    | some (v, r1) =>
      (match skipWs r1 with
       | ',' :: r2 =>
         (match parseElements fuel r2 with
          | some (es, r3) => some (v :: es, r3)
          | none => none)
       | ']' :: r2 => some ([v], r2)
       | _ => none)
    | none => none

end

/-- Model of `JSON.parse`: parse a full string as one JSON value, allowing
trailing whitespace only. -/
def jsonParse (s : String) : Option Json :=
  match parseValue (2 * s.length + 2) s.data with
  | some (j, rest) => if skipWs rest = [] then some j else none
  | none => none

/-- Last-occurrence lookup of a key in an object's field list (matching
the duplicate-key behaviour of `JSON.parse`, where later keys win). -/
def lookupLast (k : String) : List (String × Json) → Option Json
  | [] => none
  | (k', v) :: rest =>
    match lookupLast k rest with
    | some r => some r
    | none => if k' = k then some v else none

/-- Model of JavaScript property access `j.k` on a parsed JSON value:
`none` stands for `undefined`. -/
def Json.getField : Json → String → Option Json
  | Json.obj fields, k => lookupLast k fields
  | _, _ => none

/-- Length of the regex match of `/```json\n?|\n?```/` at the head of the
input, if any (ordered alternation, greedy optional newline — mirroring
the JavaScript regex engine). -/
def fenceMatchLen (cs : List Char) : Option Nat :=
  if cs.take 7 = "```json".data then
    if (cs.drop 7).head? = some '\n' then some 8 else some 7
  else if cs.take 4 = "\n```".data then some 4
  else if cs.take 3 = "```".data then some 3
  else none

/-- Global replacement of `/```json\n?|\n?```/g` by the empty string: scan
left to right, deleting each match and otherwise keeping the character.
Every match consumes at least one character, so fuel equal to the input
length suffices. -/
def stripFencesAux : Nat → List Char → List Char
  | 0, cs => cs
  | fuel + 1, cs =>
    match fenceMatchLen cs with
    | some n => stripFencesAux fuel (cs.drop n)
    | none =>
      match cs with
      | [] => []
      | c :: rest => c :: stripFencesAux fuel rest

/-- Strip leading and trailing whitespace, modelling `String.prototype.trim`
on the ASCII whitespace relevant here. -/
def jsTrim (cs : List Char) : List Char :=
  ((cs.dropWhile isJsonWs).reverse.dropWhile isJsonWs).reverse

/-- Model of `aiResponse.replace(/```json\n?|\n?```/g, '').trim()` from the
classification handler. -/
def cleanedResponse (s : String) : String :=
  String.mk (jsTrim (stripFencesAux s.length s.data))

/-! Embedding of `supabase/functions/classify-waste/index.ts`. -/

/-- Model of an HTTP response: status, headers in order, and a structural
view of the JSON body (`none` for the body-less `OPTIONS` reply). -/
structure HttpResponse where
  status : Nat
  headers : List (String × String)
  body : Option Json
deriving Repr

/-- The `corsHeaders` constant of the handler. -/
def corsHeaders : List (String × String) :=
  [("Access-Control-Allow-Origin", "*"),
   ("Access-Control-Allow-Headers", "authorization, x-client-info, apikey, content-type")]

/-- Headers of every non-preflight reply:
`{ ...corsHeaders, "Content-Type": "application/json" }`. -/
def jsonContentHeaders : List (String × String) :=
  corsHeaders ++ [("Content-Type", "application/json")]

/-- A structured error reply `{ error: msg }` with the given status. -/
def errorResponse (status : Nat) (msg : String) : HttpResponse :=
  ⟨status, jsonContentHeaders, some (Json.obj [("error", Json.str msg)])⟩

/-- Extract the `error` string of a reply body, as a caller would. -/
def errorMessageOf (r : HttpResponse) : Option String :=
  match r.body with
  | some b =>
    match b.getField "error" with
    | some (Json.str m) => some m
    | _ => none
  | none => none

/-- Outcome of the single `fetch` to the external model gateway: either a
non-ok transport status with the upstream body text, or an ok reply whose
`choices[0].message.content` is the given model text. -/
inductive FetchResult where
  | nonOk (status : Nat) (errorText : String)
  | ok (content : String)

/-- The `validCategories` list of the handler. -/
def validCategories : List String :=
  ["recyclable", "organic", "hazardous", "general"]

/-- The `baseCredits` constant. -/
def baseCredits : Int := 10

/-- The `confidenceBonus` computation: `Math.floor((confidence / 100) * 5)`
as the exact floor `⌊confidence * 5 / 100⌋`. -/
def confidenceBonus (confidence : Int) : Int :=
  Int.fdiv (confidence * 5) 100

/-- The `creditsEarned` computation: `baseCredits + confidenceBonus`. -/
def creditsEarned (confidence : Int) : Int :=
  baseCredits + confidenceBonus confidence

/-- A field list `[(k, v)]` when the value is present, `[]` when it is
`undefined` (which `JSON.stringify` omits). -/
def optField (k : String) (v : Option Json) : List (String × Json) :=
  match v with
  | some j => [(k, j)]
  | none => []

/-- The `creditsEarned` value serialized in the success body.  On a
non-number confidence the JavaScript arithmetic yields `NaN`, which
`JSON.stringify` serializes as `null`; the implicit numeric coercion of
strings, booleans and `null` is outside the model (see the header). -/
def computedCredits (classification : Json) : Json :=
  match classification.getField "confidence" with
  | some (Json.num n) => Json.num (creditsEarned n)
  | _ => Json.null

/-- The success body
`JSON.stringify({ category, confidence, reasoning, creditsEarned })`,
with `undefined` fields omitted as `JSON.stringify` does. -/
def successBody (classification : Json) : Json :=
  Json.obj
    (optField "category" (classification.getField "category")
      ++ optField "confidence" (classification.getField "confidence")
      ++ optField "reasoning" (classification.getField "reasoning")
      ++ [("creditsEarned", computedCredits classification)])

/-- The request handler of `supabase/functions/classify-waste/index.ts`.
Inputs: the request method, the `imageBase64` field of the request body
(`none` for absent/`undefined`), the `LOVABLE_API_KEY` environment value
(the `!LOVABLE_API_KEY` guard is falsy both on an unset variable and on
the empty string), the outcome the single `fetch` would produce, and two
runtime-generated error texts: the message a `JSON.parse` syntax error
would carry, and the message of the `TypeError` that the property access
`classification.category` raises when the parsed document is the bare
JSON `null` (on every other non-object value that access just yields
`undefined`).  Output: the HTTP response paired with the number of
external calls made. -/
def classifyWasteHandler (method : String) (imageBase64 : Option String)
    (apiKey : Option String) (fetchResult : FetchResult)
    (parseFailureMsg nullAccessMsg : String) : HttpResponse × Nat :=
  if method = "OPTIONS" then (⟨200, corsHeaders, none⟩, 0)
  else
    match imageBase64 with
    | none => (errorResponse 500 "No image provided", 0)
    | some img =>
      if img = "" then (errorResponse 500 "No image provided", 0)
      else
        match apiKey with
        | none => (errorResponse 500 "LOVABLE_API_KEY not configured", 0)
        | some k =>
          if k = "" then (errorResponse 500 "LOVABLE_API_KEY not configured", 0)
          else
            match fetchResult with
            | FetchResult.nonOk status _ =>
              if status = 429 then
                (⟨429, jsonContentHeaders,
                  some (Json.obj
                    [("error", Json.str "Rate limit exceeded. Please try again later.")])⟩, 1)
              else if status = 402 then
                (⟨402, jsonContentHeaders,
                  some (Json.obj
                    [("error", Json.str "AI credits depleted. Please add credits to continue.")])⟩, 1)
              else
                (errorResponse 500 ("AI gateway error: " ++ toString status), 1)
            | FetchResult.ok content =>
              match jsonParse (cleanedResponse content) with
              | none => (errorResponse 500 parseFailureMsg, 1)
              | some Json.null => (errorResponse 500 nullAccessMsg, 1)
              | some classification =>
                match classification.getField "category" with
                | some (Json.str c) =>
                  if validCategories.contains c then
                    (⟨200, jsonContentHeaders, some (successBody classification)⟩, 1)
                  else (errorResponse 500 "Invalid category returned by AI", 1)
                | _ => (errorResponse 500 "Invalid category returned by AI", 1)

/-- The category check `validCategories.includes(classification.category)`
as a predicate on the parsed value (`includes` uses strict equality, so
only a string equal to one of the four enumerated values passes). -/
def categoryAccepted (classification : Json) : Bool :=
  match classification.getField "category" with
  | some (Json.str c) => validCategories.contains c
  | _ => false

/-! Embedding of the passwordless-code handlers of `src/pages/Auth.tsx`. -/

/-- A toast notification: title, description, and whether it is the
destructive (error) variant. -/
structure Toast where
  title : String
  description : String
  destructive : Bool
deriving Repr, DecidableEq

/-- The `handleSendOTP` handler.  Inputs: the current `otpSent` flag, the
outcome of the zod email validation (`emailOk`, with `zodMsg` the message
of the first zod issue when validation fails), and the error of
`supabase.auth.signInWithOtp` (`none` on success).  Output: the new
`otpSent` flag, the toast shown, and the number of provider calls. -/
def handleSendOTP (otpSent : Bool) (emailOk : Bool) (zodMsg : String)
    (providerError : Option String) : Bool × Toast × Nat :=
  if emailOk then
    match providerError with
    | some _ => (otpSent, ⟨"Error", "Failed to send code", true⟩, 1)
    | none => (true, ⟨"Code sent!", "Check your email for the verification code", false⟩, 1)
  else (otpSent, ⟨"Validation error", zodMsg, true⟩, 0)

/-- The `handleVerifyOTP` handler.  Inputs: the entered code and the error
of `supabase.auth.verifyOtp` (`none` on success).  Output: the toast shown
and the number of provider calls. -/
def handleVerifyOTP (otp : String) (providerError : Option String) : Toast × Nat :=
  if otp.length ≠ 6 then
    (⟨"Error", "Please enter a 6-digit code", true⟩, 0)
  else
    match providerError with
    | some msg => (⟨"Error", if msg = "" then "Invalid code" else msg, true⟩, 1)
    | none => (⟨"Success!", "Successfully authenticated", false⟩, 1)

/-- Modelled from the spec: a one-time code that is "exactly 6 digits"
(the validation contract of §3 and §4.1).  Used to compare the spec's
validation requirement with the length-only check the code performs. -/
def specSixDigitCode (s : String) : Bool :=
  s.length = 6 && s.data.all Char.isDigit


/-- Convenience accessor: a named field of the JSON body of a response. -/
def bodyField (r : HttpResponse) (k : String) : Option Json :=
  match r.body with
  | some b => b.getField k
  | none => none

/-! Helper lemmas shared by the claim theorems. -/

/-- The `creditsEarned` computation written with Euclidean division, which
coincides with floor division for the positive literal divisor 100. -/
theorem creditsEarned_eq_ediv (n : Int) : creditsEarned n = 10 + n * 5 / 100 := by
  unfold creditsEarned confidenceBonus baseCredits
  rw [Int.fdiv_eq_ediv _ (by decide : (0:Int) ≤ 100)]

/-- The upstream-error message always starts with a different character
than the missing-credential message, so the two never coincide. -/
theorem gateway_msg_ne (s : Nat) :
    ("AI gateway error: " ++ toString s) ≠ "LOVABLE_API_KEY not configured" := by
  intro h
  have h2 : ("AI gateway error: " ++ toString s).data
      = ("LOVABLE_API_KEY not configured").data := congrArg String.data h
  rw [String.data_append] at h2
  rw [show ("AI gateway error: ").data = 'A' :: ("I gateway error: ").data from rfl,
    List.cons_append,
    show ("LOVABLE_API_KEY not configured").data
      = 'L' :: ("OVABLE_API_KEY not configured").data from rfl] at h2
  injection h2 with hc _
  exact absurd hc (by decide)

/-- A success body never carries an `error` field. -/
theorem successBody_getField_error (j : Json) :
    (successBody j).getField "error" = none := by
  simp only [successBody, computedCredits]
  cases hc : j.getField "category" <;> cases hn : j.getField "confidence" <;>
    cases hr : j.getField "reasoning" <;>
      simp [optField, Json.getField, lookupLast]

/-- The `creditsEarned` field of the success body, for a numeric
confidence. -/
theorem successBody_creditsEarned (j : Json) (n : Int)
    (hconf : j.getField "confidence" = some (Json.num n)) :
    (successBody j).getField "creditsEarned" = some (Json.num (creditsEarned n)) := by
  simp only [successBody, computedCredits, hconf]
  cases hc : j.getField "category" <;> cases hr : j.getField "reasoning" <;>
    simp [optField, Json.getField, lookupLast]

/-- A parsed value carrying any named field is an object. -/
theorem getField_some_obj {j : Json} {k : String} {v : Json}
    (h : j.getField k = some v) : ∃ fs, j = Json.obj fs := by
  cases j with
  | obj fields => exact ⟨fields, rfl⟩
  | null => simp [Json.getField] at h
  | bool b => simp [Json.getField] at h
  | num n => simp [Json.getField] at h
  | str s => simp [Json.getField] at h
  | arr es => simp [Json.getField] at h

/-- The handler's success branch: a parsed body whose category is one of
the enumerated values yields a 200 response carrying `successBody`. -/
theorem classify_success_branch (img key content pmsg q : String) (j : Json) (c : String)
    (himg : img ≠ "") (hkey : key ≠ "")
    (hparse : jsonParse (cleanedResponse content) = some j)
    (hcat : j.getField "category" = some (Json.str c))
    (hvalid : validCategories.contains c = true) :
    classifyWasteHandler "POST" (some img) (some key) (FetchResult.ok content) pmsg q
      = (⟨200, jsonContentHeaders, some (successBody j)⟩, 1) := by
  have hv : c ∈ validCategories := by simpa using hvalid
  obtain ⟨fs, rfl⟩ := getField_some_obj hcat
  simp [classifyWasteHandler, himg, hkey, hparse, hcat, hv]

/-- The bare-null divergence of the invalid-category path: when the model
text parses to the JSON document `null`, the property access
`classification.category` raises a runtime `TypeError`, and the catch-all
relays that runtime message — not the invalid-category constant. -/
theorem classify_null_document_runtime_error (img key pmsg q : String)
    (himg : img ≠ "") (hkey : key ≠ "") :
    classifyWasteHandler "POST" (some img) (some key) (FetchResult.ok "null") pmsg q
      = (errorResponse 500 q, 1) := by
  simp [classifyWasteHandler, himg, hkey,
    (show jsonParse (cleanedResponse "null") = some Json.null from rfl)]

/-- Every response produced by the handler carries either exactly the CORS
headers or the CORS headers followed by the JSON content type. -/
theorem handler_headers (m : String) (i k : Option String) (f : FetchResult) (p q : String) :
    (classifyWasteHandler m i k f p q).1.headers = corsHeaders ∨
    (classifyWasteHandler m i k f p q).1.headers = jsonContentHeaders := by
  unfold classifyWasteHandler errorResponse
  repeat' split
  all_goals first | exact Or.inl rfl | exact Or.inr rfl

/-- Reading the `error` field back out of a structured error reply. -/
theorem errorMessageOf_errorResponse (st : Nat) (msg : String) :
    errorMessageOf (errorResponse st msg) = some msg := by
  simp [errorMessageOf, errorResponse, Json.getField, lookupLast]

/-- The error message of a handler run that produced a structured error
reply. -/
theorem handler_errorMessage (st : Nat) (msg : String) (n : Nat) {m : String}
    {i k : Option String} {f : FetchResult} {p q : String}
    (he : classifyWasteHandler m i k f p q = (errorResponse st msg, n)) :
    errorMessageOf (classifyWasteHandler m i k f p q).1 = some msg := by
  rw [he]
  exact errorMessageOf_errorResponse st msg

/-! Claim theorems. -/

/-- Claim C1, counterexample: on transport status 429 the upstream error
message is NOT passed through to the caller — with upstream body text
"upstream detail", the response body's error string is the handler's own
fixed message, not "upstream detail". -/
theorem classify_429_passthrough_counterexample :
    errorMessageOf (classifyWasteHandler "POST" (some "img") (some "key")
      (FetchResult.nonOk 429 "upstream detail") "parse failure" "type error").1
      ≠ some "upstream detail" := by
  decide

/-- Claim C1, amended: when the model endpoint responds 429 (resp. 402),
the handler fails with response status equal to the upstream status and a
fixed `{ error: string }` body — "Rate limit exceeded. Please try again
later." (resp. "AI credits depleted. Please add credits to continue.") —
for every upstream error text; the upstream message is not forwarded. -/
theorem classify_429_402_fixed_messages (img key errText pmsg q : String)
    (himg : img ≠ "") (hkey : key ≠ "") :
    classifyWasteHandler "POST" (some img) (some key) (FetchResult.nonOk 429 errText) pmsg q
      = (⟨429, jsonContentHeaders,
          some (Json.obj [("error", Json.str "Rate limit exceeded. Please try again later.")])⟩, 1)
    ∧ classifyWasteHandler "POST" (some img) (some key) (FetchResult.nonOk 402 errText) pmsg q
      = (⟨402, jsonContentHeaders,
          some (Json.obj [("error", Json.str "AI credits depleted. Please add credits to continue.")])⟩, 1) := by
  constructor <;> simp [classifyWasteHandler, himg, hkey]

/-- Claim C1, witness: the amended statement evaluated at a concrete
request. -/
theorem classify_429_402_fixed_messages_witness :
    classifyWasteHandler "POST" (some "img") (some "key") (FetchResult.nonOk 429 "detail")
      "p" "q"
      = (⟨429, jsonContentHeaders,
          some (Json.obj [("error", Json.str "Rate limit exceeded. Please try again later.")])⟩, 1) :=
  (classify_429_402_fixed_messages "img" "key" "detail" "p" "q" (by decide) (by decide)).1

/-- Claim C2, counterexample: a successful classification whose model
confidence is 200 yields `creditsEarned = 20`, outside the closed range
[10, 15], so the range part of the claim fails (confidence is not
re-validated). -/
theorem creditsEarned_range_counterexample :
    (classifyWasteHandler "POST" (some "img") (some "key")
        (FetchResult.ok "\x7b\"category\":\"organic\",\"confidence\":200,\"reasoning\":\"x\"\x7d")
        "p" "q").1.status
      = 200
    ∧ bodyField (classifyWasteHandler "POST" (some "img") (some "key")
        (FetchResult.ok "\x7b\"category\":\"organic\",\"confidence\":200,\"reasoning\":\"x\"\x7d")
        "p" "q").1
        "creditsEarned"
      = some (Json.num 20)
    ∧ ¬ ((20 : Int) ≤ 15) :=
  ⟨rfl, rfl, by decide⟩

/-- Claim C2, amended: every successful classify response carries
`creditsEarned = 10 + ⌊confidence * 5 / 100⌋` for the numeric confidence
taken from the model output, and that value lies in [10, 15] whenever the
confidence lies in [0, 100] (out-of-range confidences are propagated
unchecked). -/
theorem classify_creditsEarned_formula (img key content pmsg q : String) (j : Json)
    (c : String) (n : Int)
    (himg : img ≠ "") (hkey : key ≠ "")
    (hparse : jsonParse (cleanedResponse content) = some j)
    (hcat : j.getField "category" = some (Json.str c))
    (hvalid : validCategories.contains c = true)
    (hconf : j.getField "confidence" = some (Json.num n)) :
    (classifyWasteHandler "POST" (some img) (some key)
        (FetchResult.ok content) pmsg q).1.status = 200
    ∧ bodyField (classifyWasteHandler "POST" (some img) (some key)
        (FetchResult.ok content) pmsg q).1 "creditsEarned"
      = some (Json.num (creditsEarned n))
    ∧ (0 ≤ n → n ≤ 100 → 10 ≤ creditsEarned n ∧ creditsEarned n ≤ 15) := by
  rw [classify_success_branch img key content pmsg q j c himg hkey hparse hcat hvalid]
  refine ⟨rfl, ?_, ?_⟩
  · simp [bodyField, successBody_creditsEarned j n hconf]
  · intro h0 h1
    rw [creditsEarned_eq_ediv]
    constructor <;> omega

/-- Claim C2, witness: the amended statement evaluated at confidence 80. -/
theorem classify_creditsEarned_formula_witness :
    (classifyWasteHandler "POST" (some "img") (some "key")
        (FetchResult.ok "\x7b\"category\":\"organic\",\"confidence\":80,\"reasoning\":\"x\"\x7d")
        "p" "q").1.status
      = 200
    ∧ bodyField (classifyWasteHandler "POST" (some "img") (some "key")
        (FetchResult.ok "\x7b\"category\":\"organic\",\"confidence\":80,\"reasoning\":\"x\"\x7d")
        "p" "q").1
        "creditsEarned"
      = some (Json.num (creditsEarned 80))
    ∧ (0 ≤ (80 : Int) → (80 : Int) ≤ 100 → 10 ≤ creditsEarned 80 ∧ creditsEarned 80 ≤ 15) :=
  classify_creditsEarned_formula "img" "key"
    "\x7b\"category\":\"organic\",\"confidence\":80,\"reasoning\":\"x\"\x7d" "p" "q"
    (Json.obj [("category", Json.str "organic"), ("confidence", Json.num 80),
      ("reasoning", Json.str "x")])
    "organic" 80 (by decide) (by decide) rfl rfl (by decide) rfl

/-- Claim C3: for the model response text consisting of the organic/80/x
JSON object wrapped in a ```json code fence, the handler strips the fence,
parses the JSON and returns exactly
category "organic", confidence 80, reasoning "x", creditsEarned 14. -/
theorem classify_fenced_json_success :
    classifyWasteHandler "POST" (some "img") (some "key")
      (FetchResult.ok "```json\n\x7b\"category\":\"organic\",\"confidence\":80,\"reasoning\":\"x\"\x7d\n```")
      "parse failure" "type error"
    = (⟨200, jsonContentHeaders,
        some (Json.obj [("category", Json.str "organic"), ("confidence", Json.num 80),
          ("reasoning", Json.str "x"), ("creditsEarned", Json.num 14)])⟩, 1) := rfl

/-- Claim C4: for every parsed model output whose category field is not a
string equal to one of the four enumerated values (case mismatch, a null
category value, an absent field, or an unlisted value such as "plastic"),
the handler fails with the invalid-category error instead of coercing the
value.  The one parsed document excluded is the bare JSON `null`, which
has no fields to validate: there the source's property access itself
raises a runtime `TypeError` that the catch-all relays (see
`classifyWasteHandler`). -/
theorem classify_invalid_category_rejected (img key content pmsg q : String) (j : Json)
    (himg : img ≠ "") (hkey : key ≠ "")
    (hparse : jsonParse (cleanedResponse content) = some j)
    (hnotnull : j ≠ Json.null)
    (hcat : categoryAccepted j = false) :
    classifyWasteHandler "POST" (some img) (some key) (FetchResult.ok content) pmsg q
      = (errorResponse 500 "Invalid category returned by AI", 1) := by
  unfold categoryAccepted at hcat
  cases j with
  | null => exact absurd rfl hnotnull
  | bool b => simp [classifyWasteHandler, himg, hkey, hparse, Json.getField]
  | num m => simp [classifyWasteHandler, himg, hkey, hparse, Json.getField]
  | str s => simp [classifyWasteHandler, himg, hkey, hparse, Json.getField]
  | arr es => simp [classifyWasteHandler, himg, hkey, hparse, Json.getField]
  | obj fs =>
    rcases hfield : (Json.obj fs).getField "category" with _ | v
    · simp [classifyWasteHandler, himg, hkey, hparse, hfield]
    · rw [hfield] at hcat
      cases v <;> simp_all [classifyWasteHandler, himg, hkey, hparse, hfield]

/-- Claim C4, witness: the statement evaluated at the "plastic" model
output. -/
theorem classify_invalid_category_rejected_witness :
    classifyWasteHandler "POST" (some "img") (some "key")
      (FetchResult.ok "\x7b\"category\":\"plastic\",\"confidence\":80,\"reasoning\":\"x\"\x7d")
      "p" "q"
      = (errorResponse 500 "Invalid category returned by AI", 1) :=
  classify_invalid_category_rejected "img" "key"
    "\x7b\"category\":\"plastic\",\"confidence\":80,\"reasoning\":\"x\"\x7d" "p" "q"
    (Json.obj [("category", Json.str "plastic"), ("confidence", Json.num 80),
      ("reasoning", Json.str "x")])
    (by decide) (by decide) rfl (fun h => Json.noConfusion h) (by decide)

/-- Claim C5: for an absent (`undefined`) or empty `imageBase64`, the
handler fails immediately with the missing-input error and makes zero
external calls, whatever the credential and the model endpoint would have
done. -/
theorem classify_missing_input (key : Option String) (f : FetchResult) (p q : String) :
    classifyWasteHandler "POST" none key f p q = (errorResponse 500 "No image provided", 0)
    ∧ classifyWasteHandler "POST" (some "") key f p q
      = (errorResponse 500 "No image provided", 0) :=
  ⟨rfl, rfl⟩

/-- Claim C6: when the API credential is falsy — the environment variable
unset, or set to the empty string, exactly the cases the source's
`!LOVABLE_API_KEY` guard catches — the handler fails with the specific
message "LOVABLE_API_KEY not configured" without calling the model
endpoint; and no run with a truthy credential ever produces that error
message (assuming the runtime-generated texts of a `JSON.parse` syntax
error and of the null-access `TypeError` differ from it, which V8's fixed
wordings always do), so the caller can distinguish the configuration
failure from model/runtime errors. -/
theorem classify_missing_credential_distinct :
    (∀ (img : String) (k : Option String) (f : FetchResult) (p q : String),
      img ≠ "" → (k = none ∨ k = some "") →
      classifyWasteHandler "POST" (some img) k f p q
        = (errorResponse 500 "LOVABLE_API_KEY not configured", 0))
    ∧ (∀ (m : String) (i : Option String) (key : String) (f : FetchResult) (p q : String),
        key ≠ "" →
        p ≠ "LOVABLE_API_KEY not configured" →
        q ≠ "LOVABLE_API_KEY not configured" →
        errorMessageOf (classifyWasteHandler m i (some key) f p q).1
          ≠ some "LOVABLE_API_KEY not configured") := by
  constructor
  · intro img k f p q himg hk
    rcases hk with rfl | rfl <;> simp [classifyWasteHandler, himg]
  · intro m i key f p q hkey hp hq
    by_cases hm : m = "OPTIONS"
    · subst hm
      intro habs
      rw [show errorMessageOf (classifyWasteHandler "OPTIONS" i (some key) f p q).1 = none
        from rfl] at habs
      exact Option.noConfusion habs
    · rcases i with _ | img
      · rw [handler_errorMessage 500 "No image provided" 0
          (by simp [classifyWasteHandler, hm])]
        decide
      · by_cases himg : img = ""
        · subst himg
          rw [handler_errorMessage 500 "No image provided" 0
            (by simp [classifyWasteHandler, hm])]
          decide
        · rcases f with ⟨s, t⟩ | content
          · by_cases h429 : s = 429
            · subst h429
              rw [handler_errorMessage 429 "Rate limit exceeded. Please try again later." 1
                (by simp [classifyWasteHandler, hm, himg, hkey, errorResponse])]
              decide
            · by_cases h402 : s = 402
              · subst h402
                rw [handler_errorMessage 402 "AI credits depleted. Please add credits to continue." 1
                  (by simp [classifyWasteHandler, hm, himg, hkey, errorResponse])]
                decide
              · rw [handler_errorMessage 500 ("AI gateway error: " ++ toString s) 1
                  (by simp [classifyWasteHandler, hm, himg, hkey, h429, h402, errorResponse])]
                exact fun habs => gateway_msg_ne s (Option.some.inj habs)
          · rcases hparse : jsonParse (cleanedResponse content) with _ | j
            · rw [handler_errorMessage 500 p 1
                (by simp [classifyWasteHandler, hm, himg, hkey, hparse, errorResponse])]
              exact fun habs => hp (Option.some.inj habs)
            · cases j with
              | null =>
                rw [handler_errorMessage 500 q 1
                  (by simp [classifyWasteHandler, hm, himg, hkey, hparse, errorResponse])]
                exact fun habs => hq (Option.some.inj habs)
              | bool b =>
                rw [handler_errorMessage 500 "Invalid category returned by AI" 1
                  (by simp [classifyWasteHandler, hm, himg, hkey, hparse, Json.getField,
                    errorResponse])]
                decide
              | num nv =>
                rw [handler_errorMessage 500 "Invalid category returned by AI" 1
                  (by simp [classifyWasteHandler, hm, himg, hkey, hparse, Json.getField,
                    errorResponse])]
                decide
              | str sv =>
                rw [handler_errorMessage 500 "Invalid category returned by AI" 1
                  (by simp [classifyWasteHandler, hm, himg, hkey, hparse, Json.getField,
                    errorResponse])]
                decide
              | arr es =>
                rw [handler_errorMessage 500 "Invalid category returned by AI" 1
                  (by simp [classifyWasteHandler, hm, himg, hkey, hparse, Json.getField,
                    errorResponse])]
                decide
              | obj fs =>
                rcases hfield : (Json.obj fs).getField "category" with _ | v
                · rw [handler_errorMessage 500 "Invalid category returned by AI" 1
                    (by simp [classifyWasteHandler, hm, himg, hkey, hparse, hfield,
                      errorResponse])]
                  decide
                · rcases v with _ | b | nv | c | es | fs2
                  · rw [handler_errorMessage 500 "Invalid category returned by AI" 1
                      (by simp [classifyWasteHandler, hm, himg, hkey, hparse, hfield,
                        errorResponse])]
                    decide
                  · rw [handler_errorMessage 500 "Invalid category returned by AI" 1
                      (by simp [classifyWasteHandler, hm, himg, hkey, hparse, hfield,
                        errorResponse])]
                    decide
                  · rw [handler_errorMessage 500 "Invalid category returned by AI" 1
                      (by simp [classifyWasteHandler, hm, himg, hkey, hparse, hfield,
                        errorResponse])]
                    decide
                  · by_cases hv : c ∈ validCategories
                    · have he : classifyWasteHandler m (some img) (some key)
                          (FetchResult.ok content) p q
                          = (⟨200, jsonContentHeaders, some (successBody (Json.obj fs))⟩, 1) := by
                        simp [classifyWasteHandler, hm, himg, hkey, hparse, hfield, hv]
                      intro habs
                      rw [he, show errorMessageOf
                          ((⟨200, jsonContentHeaders,
                            some (successBody (Json.obj fs))⟩ : HttpResponse), 1).1
                          = none from by simp [errorMessageOf, successBody_getField_error]] at habs
                      exact Option.noConfusion habs
                    · rw [handler_errorMessage 500 "Invalid category returned by AI" 1
                        (by simp [classifyWasteHandler, hm, himg, hkey, hparse, hfield, hv,
                          errorResponse])]
                      decide
                  · rw [handler_errorMessage 500 "Invalid category returned by AI" 1
                      (by simp [classifyWasteHandler, hm, himg, hkey, hparse, hfield,
                        errorResponse])]
                    decide
                  · rw [handler_errorMessage 500 "Invalid category returned by AI" 1
                      (by simp [classifyWasteHandler, hm, himg, hkey, hparse, hfield,
                        errorResponse])]
                    decide

/-- Claim C6, witness: both falsy-credential forms and the distinctness
part evaluated at concrete runs. -/
theorem classify_missing_credential_distinct_witness :
    classifyWasteHandler "POST" (some "img") none (FetchResult.ok "c") "p" "q"
      = (errorResponse 500 "LOVABLE_API_KEY not configured", 0)
    ∧ classifyWasteHandler "POST" (some "img") (some "") (FetchResult.ok "c") "p" "q"
      = (errorResponse 500 "LOVABLE_API_KEY not configured", 0)
    ∧ errorMessageOf (classifyWasteHandler "POST" (some "img") (some "key")
        (FetchResult.ok "c") "syntax error" "type error").1
      ≠ some "LOVABLE_API_KEY not configured" :=
  ⟨classify_missing_credential_distinct.1 "img" none (FetchResult.ok "c") "p" "q"
      (by decide) (Or.inl rfl),
   classify_missing_credential_distinct.1 "img" (some "") (FetchResult.ok "c") "p" "q"
      (by decide) (Or.inr rfl),
   classify_missing_credential_distinct.2 "POST" (some "img") "key"
      (FetchResult.ok "c") "syntax error" "type error"
      (by decide) (by decide) (by decide)⟩

/-- Claim C7: over integer confidences in [0, 100], `creditsEarned` is
monotonically non-decreasing in the confidence and always lies in the
closed range [10, 15]. -/
theorem creditsEarned_monotone_bounded (c1 c2 : Int)
    (h0 : 0 ≤ c1) (h12 : c1 ≤ c2) (h2 : c2 ≤ 100) :
    creditsEarned c1 ≤ creditsEarned c2
    ∧ 10 ≤ creditsEarned c1 ∧ creditsEarned c1 ≤ 15 := by
  rw [creditsEarned_eq_ediv, creditsEarned_eq_ediv]
  exact ⟨by omega, by omega, by omega⟩

/-- Claim C7, witness: the statement evaluated at confidences 40 and 80. -/
theorem creditsEarned_monotone_bounded_witness :
    creditsEarned 40 ≤ creditsEarned 80
    ∧ 10 ≤ creditsEarned 40 ∧ creditsEarned 40 ≤ 15 :=
  creditsEarned_monotone_bounded 40 80 (by decide) (by decide) (by decide)

/-- Claim C8, counterexample: the code "abcdef" is not a 6-digit code, yet
the verify handler does call the identity provider (it checks only the
length), and does not show the local 6-digit-code rejection. -/
theorem verifyOtp_nondigit_counterexample :
    specSixDigitCode "abcdef" = false
    ∧ (handleVerifyOTP "abcdef" none).2 ≠ 0
    ∧ (handleVerifyOTP "abcdef" none).1 ≠ ⟨"Error", "Please enter a 6-digit code", true⟩ := by
  decide

/-- Claim C8, amended: every submitted code whose length differs from 6 is
rejected locally with the message "Please enter a 6-digit code" and zero
provider calls; digit-ness is not checked, so the local rejection covers
exactly the wrong-length codes. -/
theorem verifyOtp_length_check_local (otp : String) (providerError : Option String)
    (h : otp.length ≠ 6) :
    handleVerifyOTP otp providerError
      = (⟨"Error", "Please enter a 6-digit code", true⟩, 0) := by
  unfold handleVerifyOTP
  rw [if_pos h]

/-- Claim C8, witness: the amended statement evaluated at the 3-character
code "123". -/
theorem verifyOtp_length_check_local_witness :
    handleVerifyOTP "123" none = (⟨"Error", "Please enter a 6-digit code", true⟩, 0) :=
  verifyOtp_length_check_local "123" none (by decide)

/-- Claim C9: starting from the code-request state (`otpSent = false`),
the send handler sets the code-entry flag exactly when the email validates
and the provider call succeeds; on every failure the flag stays unset and
the toast shown is the destructive (error) variant. -/
theorem sendOtp_state_transition (emailOk : Bool) (zodMsg : String)
    (providerError : Option String) :
    ((handleSendOTP false emailOk zodMsg providerError).1 = true
      ↔ emailOk = true ∧ providerError = none)
    ∧ ((handleSendOTP false emailOk zodMsg providerError).1 = false →
        (handleSendOTP false emailOk zodMsg providerError).2.1.destructive = true) := by
  cases emailOk <;> rcases providerError with _ | e <;> simp [handleSendOTP]

/-- Claim C9, witness: a provider failure leaves the flag unset and shows a
destructive toast. -/
theorem sendOtp_state_transition_witness :
    (handleSendOTP false true "" (some "provider down")).1 = false
    ∧ (handleSendOTP false true "" (some "provider down")).2.1.destructive = true :=
  ⟨rfl, (sendOtp_state_transition true "" (some "provider down")).2 rfl⟩

/-- Claim C10: every response the handler produces — the OPTIONS preflight,
the 200 success, the 429/402 errors and the 500 catch-all — includes every
CORS header (wildcard origin and the allowed-headers list). -/
theorem classify_cors_headers (m : String) (i k : Option String) (f : FetchResult)
    (p q : String) :
    ∀ hdr ∈ corsHeaders, hdr ∈ (classifyWasteHandler m i k f p q).1.headers := by
  intro hdr hmem
  rcases handler_headers m i k f p q with h | h <;> rw [h]
  · exact hmem
  · exact List.mem_append_left _ hmem

/-- Claim C10, witness: the wildcard-origin header is present on a concrete
run. -/
theorem classify_cors_headers_witness :
    ("Access-Control-Allow-Origin", "*")
      ∈ (classifyWasteHandler "POST" none none (FetchResult.ok "") "p" "q").1.headers :=
  classify_cors_headers "POST" none none (FetchResult.ok "") "p" "q"
    ("Access-Control-Allow-Origin", "*") (by decide)
